import Mathlib

/-!
Shallow embedding of `src/assets/component-product-media-variant-handler.js`:
a custom element `product-media` that, on debounced variant-change
notifications, matches slides by their `data-variant-id` attribute, toggles
thumbnail visibility, refreshes two Swiper instances on the next animation
frame and broadcasts `product-media:updated` one frame later.
-/

set_option autoImplicit false

namespace ProductMedia

/-- A JavaScript value that can arrive as `data.variant.id`.  Identifiers are
numeric or string; `null`/`undefined` model an absent identifier field. -/
inductive JsVal
  | str (s : String)
  | num (n : Int)
  | null
  | undef
deriving DecidableEq, Repr

/-- `variantId.toString()`: strings are themselves, numbers print in decimal,
and calling `.toString()` on `null`/`undefined` throws a TypeError (`none`). -/
def JsVal.toStr : JsVal → Option String
  | .str s => some s
  | .num n => some (toString n)
  | .null => none
  | .undef => none

/-- The inline style slots the synchronizer writes (`slide.style.display`,
`slide.style.visibility`). -/
structure Style where
  display : String
  visibility : String
deriving DecidableEq, Repr

/-- One `.swiper-slide` element: its optional `data-variant-id` attribute
(`getAttribute` yields `null` = `none` when absent) and its inline style. -/
structure Slide where
  dataVariantId : Option String
  style : Style
deriving DecidableEq, Repr

/-- The DOM fragment the component queries: the `[data-slider-main]` slides
and the `[data-media-thumbnails]` slides. -/
structure Dom where
  mainSlides : List Slide
  thumbSlides : List Slide
deriving DecidableEq, Repr

/-- The object built inside the main-slide scan:
`{ id: variantId, hasMetafieldImages: true }`. -/
structure VariantData where
  id : JsVal
  hasMetafieldImages : Bool
deriving DecidableEq, Repr

/-- One iteration of the `mainSlides.forEach` scan: compare
`slide.getAttribute('data-variant-id') === variantId.toString()` and on a
match overwrite `variantData` with `{ id, hasMetafieldImages: true }`.
A `variantId.toString()` TypeError aborts the loop (`Except.error`),
and an already-thrown error propagates past the remaining slides. -/
def scanStep (variantId : JsVal) (acc : Except Unit (Option VariantData))
    (slide : Slide) : Except Unit (Option VariantData) :=
  match acc with
  | .error e => .error e
  | .ok cur =>
    match variantId.toStr with
    | none => .error ()
    | some s =>
      .ok (if slide.dataVariantId = some s then
             some ⟨variantId, true⟩
           else cur)

/-- The whole `mainSlides.forEach` scan, starting from `variantData = null`. -/
def scanMainSlides (slides : List Slide) (variantId : JsVal) :
    Except Unit (Option VariantData) :=
  slides.foldl (scanStep variantId) (.ok none)

/-- The body of the `thumbnailSlides.forEach` update, with `s` the incoming
identifier's string form: a matching slide gets `display = ''` and
`visibility = 'visible'`; a slide whose attribute is truthy (present and
non-empty) but different gets `display = 'none'`; others are untouched. -/
def updateThumb (s : String) (slide : Slide) : Slide :=
  match slide.dataVariantId with
  | some a =>
    if a = s then
      { slide with style := { display := "", visibility := "visible" } }
    else if a ≠ "" then
      { slide with style := { slide.style with display := "none" } }
    else
      slide
  | none => slide

/-- An operation on one of the two Swiper handles. -/
inductive SliderOp
  | thumbsUpdate
  | thumbsSlideTo (i : Nat)
  | mainUpdate
  | mainSlideTo (i : Nat)
deriving DecidableEq, Repr

/-- An action performed inside a `requestAnimationFrame` callback. -/
inductive FrameAction
  | slider (op : SliderOp)
  | dispatchDoc (name : String)
deriving DecidableEq, Repr

/-- Whether a frame action is a `document.dispatchEvent` call. -/
def FrameAction.isDispatchDoc : FrameAction → Bool
  | .dispatchDoc _ => true
  | _ => false

/-- Which of the two externally-owned Swiper handles are currently attached
to the component (`this.swiperThumbs`, `this.swiperMain`). -/
structure CompProps where
  swiperThumbs : Bool
  swiperMain : Bool
deriving DecidableEq, Repr

/-- The first animation-frame callback: `swiperThumbs.update(); slideTo(0)`
then `swiperMain.update(); slideTo(0)`, each guarded by handle presence. -/
def sliderRefresh (props : CompProps) : List FrameAction :=
  (if props.swiperThumbs then
     [.slider .thumbsUpdate, .slider (.thumbsSlideTo 0)]
   else []) ++
  (if props.swiperMain then
     [.slider .mainUpdate, .slider (.mainSlideTo 0)]
   else [])

/-- Outcome of one `updateMediaForVariant` run: the DOM after the synchronous
style writes, the actions of the first animation-frame callback, and the
actions of the nested second-frame callback. -/
structure SyncResult where
  dom : Dom
  raf1 : List FrameAction
  raf2 : List FrameAction
deriving DecidableEq, Repr

/-- `updateMediaForVariant(variantId)`: scan the main slides for a match; if
`!variantData || !variantData.hasMetafieldImages`, return with no effect;
otherwise rewrite every thumbnail's style, schedule the slider refresh on the
next frame and the `product-media:updated` dispatch one frame later. -/
def updateMediaForVariant (props : CompProps) (dom : Dom) (variantId : JsVal) :
    Except Unit SyncResult :=
  match scanMainSlides dom.mainSlides variantId with
  | .error e => .error e
  | .ok none => .ok ⟨dom, [], []⟩
  | .ok (some vd) =>
    if vd.hasMetafieldImages = false then
      .ok ⟨dom, [], []⟩
    else
      match variantId.toStr with
      | none => .error ()
      | some s =>
        .ok ⟨{ dom with thumbSlides := dom.thumbSlides.map (updateThumb s) },
             sliderRefresh props,
             [.dispatchDoc "product-media:updated"]⟩

/-- A live `setTimeout` handle: when it fires and which identifier the
closure captured. -/
structure Timer where
  fireAt : Nat
  vid : JsVal
deriving DecidableEq, Repr

/-- Shape of a `variant:change` event payload as the listeners test it:
`data` falsy, `data.variant` falsy, or `data.variant` present with an
`id` field (possibly `null`/`undefined`). -/
inductive Payload
  | nullish
  | noVariant
  | withVariant (id : JsVal)
deriving DecidableEq, Repr

/-- The observable state of one component instance together with its
registered notification channels: whether `window.eventBus` exists, how many
bus subscriptions and document listeners `connectedCallback` has installed,
the live debounce timer, the list of identifiers `updateMediaForVariant` has
been invoked with, and how many times `handleVariantChange` has run. -/
structure PageState where
  busPresent : Bool
  busListeners : Nat
  docListeners : Nat
  pending : Option Timer
  synced : List JsVal
  invocations : Nat
deriving DecidableEq, Repr

/-- Fresh page: no listeners installed, no timer, nothing synchronized. -/
def pageInit (busPresent : Bool) : PageState :=
  { busPresent, busListeners := 0, docListeners := 0, pending := none,
    synced := [], invocations := 0 }

/-- `handleVariantChange(variantId)` at time `t`: `clearTimeout` on any
pending handle, then `setTimeout(..., 100)` capturing `variantId`. -/
def handleVariantChange (t : Nat) (variantId : JsVal) (s : PageState) :
    PageState :=
  { s with pending := some ⟨t + 100, variantId⟩,
           invocations := s.invocations + 1 }

/-- `connectedCallback`: subscribe on `window.eventBus` when it exists, and
always add a `document` listener for `variant:change`. -/
def connectedCallback (s : PageState) : PageState :=
  { s with busListeners := s.busListeners + (if s.busPresent then 1 else 0),
           docListeners := s.docListeners + 1 }

/-- `disconnectedCallback`: `clearTimeout(this.debounceTimer)` and nothing
else — no listener is removed. -/
def disconnectedCallback (s : PageState) : PageState :=
  { s with pending := none }

/-- Body of both installed listeners: guard `data && data.variant` (resp.
`event.detail && event.detail.variant`) then forward `data.variant.id`. -/
def listenerBody (t : Nat) (p : Payload) (s : PageState) : PageState :=
  match p with
  | .withVariant id => handleVariantChange t id s
  | _ => s

/-- Fire the debounce timer if it is due at time `t`: its callback invokes
`updateMediaForVariant` with the captured identifier and the handle is
consumed. -/
def fireDue (t : Nat) (s : PageState) : PageState :=
  match s.pending with
  | some tm =>
    if tm.fireAt ≤ t then
      { s with pending := none, synced := s.synced ++ [tm.vid] }
    else s
  | none => s

/-- Externally driven happenings: attach, detach, a `variant:change`
dispatch on `document`, an emission on the bus, or mere passage of time. -/
inductive Ev
  | connect
  | disconnect
  | docDispatch (p : Payload)
  | busEmit (p : Payload)
  | elapse
deriving DecidableEq, Repr

/-- One timed event: any timer due by then fires first (it was queued
earlier), then the event runs; a dispatch runs every installed copy of the
listener in turn. -/
def step (e : Nat × Ev) (s : PageState) : PageState :=
  let s1 := fireDue e.1 s
  match e.2 with
  | .connect => connectedCallback s1
  | .disconnect => disconnectedCallback s1
  | .docDispatch p => (listenerBody e.1 p)^[s1.docListeners] s1
  | .busEmit p => (listenerBody e.1 p)^[s1.busListeners] s1
  | .elapse => s1

/-- Run a list of timed events in order. -/
def run (evs : List (Nat × Ev)) (s : PageState) : PageState :=
  evs.foldl (fun s e => step e s) s

/-- A `variant:change` document dispatch carrying identifier `v`, for each
timed notification. -/
def dispatches (notifs : List (Nat × JsVal)) : List (Nat × Ev) :=
  notifs.map (fun p => (p.1, .docDispatch (.withVariant p.2)))

/-- An event that delivers no variant identifier to the component. -/
def noNotify (e : Nat × Ev) : Bool :=
  match e.2 with
  | .docDispatch (.withVariant _) => false
  | .busEmit (.withVariant _) => false
  | _ => true

/-- `customElements.get(tag)` truthiness: is the tag already defined? -/
def customElementsGet (reg : List String) (tag : String) : Bool :=
  reg.contains tag

/-- `customElements.define(tag, ...)`: records the definition. -/
def customElementsDefine (reg : List String) (tag : String) : List String :=
  reg ++ [tag]

/-- The whole file's top level:
`if (!customElements.get('product-media')) { ... customElements.define(...) }`. -/
def registerProductMedia (reg : List String) : List String :=
  if customElementsGet reg "product-media" = false then
    customElementsDefine reg "product-media"
  else reg

/-! ### Properties of the main-slide scan and the synchronizer -/

lemma foldl_scanStep_error (v : JsVal) (slides : List Slide) (e : Unit) :
    slides.foldl (scanStep v) (.error e) = .error e := by
  induction slides with
  | nil => rfl
  | cons sl rest ih => simpa [List.foldl_cons, scanStep] using ih

lemma foldl_scanStep_of_nomatch (v : JsVal) (s : String) (hs : v.toStr = some s)
    (slides : List Slide) (acc : Option VariantData)
    (h : ∀ sl ∈ slides, sl.dataVariantId ≠ some s) :
    slides.foldl (scanStep v) (.ok acc) = .ok acc := by
  induction slides generalizing acc with
  | nil => rfl
  | cons sl rest ih =>
    have hhd : ¬sl.dataVariantId = some s := h sl (by simp)
    have htl : ∀ x ∈ rest, x.dataVariantId ≠ some s := fun x hx => h x (by simp [hx])
    rw [List.foldl_cons]
    have hstep : scanStep v (.ok acc) sl = .ok acc := by
      simp [scanStep, hs, hhd]
    rw [hstep]
    exact ih acc htl

lemma foldl_scanStep_stay (v : JsVal) (s : String) (hs : v.toStr = some s)
    (slides : List Slide) :
    slides.foldl (scanStep v) (.ok (some ⟨v, true⟩)) = .ok (some ⟨v, true⟩) := by
  induction slides with
  | nil => rfl
  | cons sl rest ih =>
    rw [List.foldl_cons]
    have hstep : scanStep v (.ok (some ⟨v, true⟩)) sl = .ok (some ⟨v, true⟩) := by
      simp [scanStep, hs]
    rw [hstep]
    exact ih

lemma scanMainSlides_of_nomatch (v : JsVal) (s : String) (hs : v.toStr = some s)
    (slides : List Slide) (h : ∀ sl ∈ slides, sl.dataVariantId ≠ some s) :
    scanMainSlides slides v = .ok none :=
  foldl_scanStep_of_nomatch v s hs slides none h

lemma scanMainSlides_of_match (v : JsVal) (s : String) (hs : v.toStr = some s)
    (slides : List Slide) (hmatch : ∃ sl ∈ slides, sl.dataVariantId = some s) :
    scanMainSlides slides v = .ok (some ⟨v, true⟩) := by
  unfold scanMainSlides
  induction slides with
  | nil =>
    rcases hmatch with ⟨sl, hmem, _⟩
    exact absurd hmem (List.not_mem_nil sl)
  | cons hd rest ih =>
    rw [List.foldl_cons]
    by_cases hhd : hd.dataVariantId = some s
    · have hstep : scanStep v (.ok none) hd = .ok (some ⟨v, true⟩) := by
        simp [scanStep, hs, hhd]
      rw [hstep]
      exact foldl_scanStep_stay v s hs rest
    · have hstep : scanStep v (.ok none) hd = .ok none := by
        simp [scanStep, hs, hhd]
      rw [hstep]
      rcases hmatch with ⟨sl, hmem, hsl⟩
      rcases List.mem_cons.mp hmem with rfl | hmem'
      · exact absurd hsl hhd
      · exact ih ⟨sl, hmem', hsl⟩

lemma scanMainSlides_throw (v : JsVal) (hv : v.toStr = none)
    (hd : Slide) (tl : List Slide) :
    scanMainSlides (hd :: tl) v = .error () := by
  unfold scanMainSlides
  rw [List.foldl_cons]
  have hstep : scanStep v (.ok none) hd = .error () := by
    simp [scanStep, hv]
  rw [hstep]
  exact foldl_scanStep_error v tl ()

lemma updateMediaForVariant_success (props : CompProps) (dom : Dom)
    (v : JsVal) (s : String) (hs : v.toStr = some s)
    (hmatch : ∃ sl ∈ dom.mainSlides, sl.dataVariantId = some s) :
    updateMediaForVariant props dom v =
      .ok ⟨{ dom with thumbSlides := dom.thumbSlides.map (updateThumb s) },
           sliderRefresh props, [.dispatchDoc "product-media:updated"]⟩ := by
  have h := scanMainSlides_of_match v s hs dom.mainSlides hmatch
  simp [updateMediaForVariant, h, hs]

lemma updateMediaForVariant_abort (props : CompProps) (dom : Dom)
    (v : JsVal) (s : String) (hs : v.toStr = some s)
    (hnone : ∀ sl ∈ dom.mainSlides, sl.dataVariantId ≠ some s) :
    updateMediaForVariant props dom v = .ok ⟨dom, [], []⟩ := by
  have h := scanMainSlides_of_nomatch v s hs dom.mainSlides hnone
  simp [updateMediaForVariant, h]

lemma updateMediaForVariant_main_preserved (props : CompProps) (dom : Dom)
    (v : JsVal) (r : SyncResult)
    (h : updateMediaForVariant props dom v = .ok r) :
    r.dom.mainSlides = dom.mainSlides := by
  unfold updateMediaForVariant at h
  split at h
  · exact absurd h (by simp)
  · injection h with h2
    subst h2
    rfl
  · split at h
    · injection h with h2
      subst h2
      rfl
    · split at h
      · exact absurd h (by simp)
      · injection h with h2
        subst h2
        rfl

/-! ### Concrete fixtures used by the witnesses -/

/-- A main/thumbnail slide tagged with variant identifier `"1"`. -/
def slideA : Slide := ⟨some "1", ⟨"", ""⟩⟩

/-- A slide tagged with variant identifier `"2"`. -/
def slideB : Slide := ⟨some "2", ⟨"", ""⟩⟩

/-- An untagged (shared) thumbnail slide, currently visible. -/
def slideC : Slide := ⟨none, ⟨"", "visible"⟩⟩

/-- Main gallery tagged {1, 2}; thumbnails tagged {1, 2} plus one untagged. -/
def domAB : Dom := ⟨[slideA, slideB], [slideA, slideB, slideC]⟩

/-- Both Swiper handles attached. -/
def props11 : CompProps := ⟨true, true⟩

/-- The synchronizer's outcome on `domAB` for identifier `1`. -/
def syncAB : SyncResult :=
  ⟨{ domAB with thumbSlides := domAB.thumbSlides.map (updateThumb "1") },
   sliderRefresh props11, [.dispatchDoc "product-media:updated"]⟩

/-! ### Claim theorems: the synchronizer -/

/-- C1: when the identifier matches at least one main slide, every thumbnail
whose `data-variant-id` string-equals the identifier's string form gets its
display cleared and visibility set to visible, every thumbnail with a
different non-empty attribute gets display `none`, and every thumbnail
without the attribute is left untouched. -/
theorem match_and_show (props : CompProps) (dom : Dom) (v : JsVal) (s : String)
    (hs : v.toStr = some s)
    (hmatch : ∃ sl ∈ dom.mainSlides, sl.dataVariantId = some s) :
    ∃ r, updateMediaForVariant props dom v = .ok r ∧
      r.dom.thumbSlides = dom.thumbSlides.map (updateThumb s) ∧
      ∀ slide ∈ dom.thumbSlides,
        (slide.dataVariantId = some s →
          updateThumb s slide = { slide with style := ⟨"", "visible"⟩ }) ∧
        (∀ a, slide.dataVariantId = some a → a ≠ s → a ≠ "" →
          updateThumb s slide =
            { slide with style := ⟨"none", slide.style.visibility⟩ }) ∧
        (slide.dataVariantId = none → updateThumb s slide = slide) := by
  refine ⟨_, updateMediaForVariant_success props dom v s hs hmatch, rfl, ?_⟩
  intro slide _
  refine ⟨?_, ?_, ?_⟩
  · intro hm
    simp [updateThumb, hm]
  · intro a ha hne hne2
    simp [updateThumb, ha, hne, hne2]
  · intro hn
    simp [updateThumb, hn]

/-- Witness for C1 on the concrete {1, 2} galleries with identifier `1`. -/
theorem match_and_show_witness :
    (JsVal.num 1).toStr = some "1" ∧
    (∃ sl ∈ domAB.mainSlides, sl.dataVariantId = some "1") ∧
    (∃ r, updateMediaForVariant props11 domAB (JsVal.num 1) = .ok r ∧
      r.dom.thumbSlides = domAB.thumbSlides.map (updateThumb "1") ∧
      ∀ slide ∈ domAB.thumbSlides,
        (slide.dataVariantId = some "1" →
          updateThumb "1" slide = { slide with style := ⟨"", "visible"⟩ }) ∧
        (∀ a, slide.dataVariantId = some a → a ≠ "1" → a ≠ "" →
          updateThumb "1" slide =
            { slide with style := ⟨"none", slide.style.visibility⟩ }) ∧
        (slide.dataVariantId = none → updateThumb "1" slide = slide)) :=
  ⟨rfl, ⟨slideA, by simp [domAB], rfl⟩,
   match_and_show props11 domAB (JsVal.num 1) "1" rfl
     ⟨slideA, by simp [domAB], rfl⟩⟩

/-- C5: an identifier whose string form matches no main slide makes the run
abort: the DOM is returned unchanged, no frame action is scheduled and no
document-level notification is emitted. -/
theorem no_match_abort (props : CompProps) (dom : Dom) (v : JsVal) (s : String)
    (hs : v.toStr = some s)
    (hnone : ∀ sl ∈ dom.mainSlides, sl.dataVariantId ≠ some s) :
    updateMediaForVariant props dom v = .ok ⟨dom, [], []⟩ :=
  updateMediaForVariant_abort props dom v s hs hnone

/-- Witness for C5: identifier `9` matches nothing in the {1, 2} gallery. -/
theorem no_match_abort_witness :
    (JsVal.num 9).toStr = some "9" ∧
    (∀ sl ∈ domAB.mainSlides, sl.dataVariantId ≠ some "9") ∧
    updateMediaForVariant props11 domAB (JsVal.num 9) = .ok ⟨domAB, [], []⟩ :=
  ⟨rfl, by decide, no_match_abort props11 domAB (JsVal.num 9) "9" rfl (by decide)⟩

/-- C6: a successful synchronization schedules the slider refresh in the
first animation frame and, one frame boundary later, exactly one
document-level `product-media:updated` dispatch. -/
theorem completion_broadcast (props : CompProps) (dom : Dom) (v : JsVal)
    (s : String) (hs : v.toStr = some s)
    (hmatch : ∃ sl ∈ dom.mainSlides, sl.dataVariantId = some s) :
    ∃ r, updateMediaForVariant props dom v = .ok r ∧
      r.raf1 = sliderRefresh props ∧
      r.raf2 = [FrameAction.dispatchDoc "product-media:updated"] ∧
      (r.raf1 ++ r.raf2).countP FrameAction.isDispatchDoc = 1 := by
  refine ⟨_, updateMediaForVariant_success props dom v s hs hmatch, rfl, rfl, ?_⟩
  rcases props with ⟨t, m⟩
  cases t <;> cases m <;> rfl

/-- Witness for C6 on the concrete {1, 2} galleries with identifier `1`. -/
theorem completion_broadcast_witness :
    (JsVal.num 1).toStr = some "1" ∧
    (∃ sl ∈ domAB.mainSlides, sl.dataVariantId = some "1") ∧
    (∃ r, updateMediaForVariant props11 domAB (JsVal.num 1) = .ok r ∧
      r.raf1 = sliderRefresh props11 ∧
      r.raf2 = [FrameAction.dispatchDoc "product-media:updated"] ∧
      (r.raf1 ++ r.raf2).countP FrameAction.isDispatchDoc = 1) :=
  ⟨rfl, ⟨slideA, by simp [domAB], rfl⟩,
   completion_broadcast props11 domAB (JsVal.num 1) "1" rfl
     ⟨slideA, by simp [domAB], rfl⟩⟩

/-- C7: the derived `hasMetafieldImages` flag is true on every scan result
that found a match, the scan finds a match exactly when some main slide's
attribute equals the identifier's string form, and the no-effect abort
happens exactly when no main slide matches. -/
theorem availability_flag (dom : Dom) (v : JsVal) (s : String)
    (hs : v.toStr = some s) :
    (∀ vd, scanMainSlides dom.mainSlides v = .ok (some vd) →
      vd.hasMetafieldImages = true) ∧
    ((scanMainSlides dom.mainSlides v = .ok (some ⟨v, true⟩)) ↔
      ∃ sl ∈ dom.mainSlides, sl.dataVariantId = some s) ∧
    (∀ props, updateMediaForVariant props dom v = .ok ⟨dom, [], []⟩ ↔
      ¬∃ sl ∈ dom.mainSlides, sl.dataVariantId = some s) := by
  by_cases hex : ∃ sl ∈ dom.mainSlides, sl.dataVariantId = some s
  · have hscan := scanMainSlides_of_match v s hs dom.mainSlides hex
    refine ⟨?_, ?_, ?_⟩
    · intro vd h
      rw [hscan] at h
      injection h with h2
      injection h2 with h3
      rw [← h3]
    · simp [hscan, hex]
    · intro props
      rw [updateMediaForVariant_success props dom v s hs hex]
      simp [hex, sliderRefresh]
  · have hnone : ∀ sl ∈ dom.mainSlides, sl.dataVariantId ≠ some s :=
      fun sl hmem hsl => hex ⟨sl, hmem, hsl⟩
    have hscan := scanMainSlides_of_nomatch v s hs dom.mainSlides hnone
    refine ⟨?_, ?_, ?_⟩
    · intro vd h
      rw [hscan] at h
      exact absurd h (by simp)
    · simp [hscan, hex]
    · intro props
      simp [updateMediaForVariant_abort props dom v s hs hnone, hex]

/-- Witness for C7 on the concrete {1, 2} gallery with identifier `1`. -/
theorem availability_flag_witness :
    (JsVal.num 1).toStr = some "1" ∧
    ((∀ vd, scanMainSlides domAB.mainSlides (JsVal.num 1) = .ok (some vd) →
      vd.hasMetafieldImages = true) ∧
    ((scanMainSlides domAB.mainSlides (JsVal.num 1) =
        .ok (some ⟨JsVal.num 1, true⟩)) ↔
      ∃ sl ∈ domAB.mainSlides, sl.dataVariantId = some "1") ∧
    (∀ props, updateMediaForVariant props domAB (JsVal.num 1) =
        .ok ⟨domAB, [], []⟩ ↔
      ¬∃ sl ∈ domAB.mainSlides, sl.dataVariantId = some "1")) :=
  ⟨rfl, availability_flag domAB (JsVal.num 1) "1" rfl⟩

/-- C10: hiding a non-matching tagged thumbnail only sets its inline display
to `none`, preserving its visibility slot, and no synchronizer run ever
mutates a main-gallery slide. -/
theorem hide_only_display (props : CompProps) (dom : Dom) (v : JsVal)
    (r : SyncResult) (s a : String) (slide : Slide)
    (hattr : slide.dataVariantId = some a) (hne : a ≠ s) (hne2 : a ≠ "")
    (hr : updateMediaForVariant props dom v = .ok r) :
    updateThumb s slide =
      { slide with style := ⟨"none", slide.style.visibility⟩ } ∧
    r.dom.mainSlides = dom.mainSlides := by
  constructor
  · simp [updateThumb, hattr, hne, hne2]
  · exact updateMediaForVariant_main_preserved props dom v r hr

/-- Witness for C10: thumbnail `2` hidden by a run for identifier `1`. -/
theorem hide_only_display_witness :
    slideB.dataVariantId = some "2" ∧ ("2" : String) ≠ "1" ∧
    ("2" : String) ≠ "" ∧
    updateMediaForVariant props11 domAB (JsVal.num 1) = .ok syncAB ∧
    (updateThumb "1" slideB =
      { slideB with style := ⟨"none", slideB.style.visibility⟩ } ∧
    syncAB.dom.mainSlides = domAB.mainSlides) :=
  ⟨rfl, by decide, by decide, rfl,
   hide_only_display props11 domAB (JsVal.num 1) syncAB "1" "2" slideB rfl
     (by decide) (by decide) rfl⟩

/-! ### Properties of the event/timer machine -/

lemma run_cons (x : Nat × Ev) (xs : List (Nat × Ev)) (s : PageState) :
    run (x :: xs) s = run xs (step x s) := rfl

lemma run_append (a b : List (Nat × Ev)) (s : PageState) :
    run (a ++ b) s = run b (run a s) := by
  simp [run, List.foldl_append]

lemma dispatches_cons (t : Nat) (v : JsVal) (l : List (Nat × JsVal)) :
    dispatches ((t, v) :: l) =
      (t, .docDispatch (.withVariant v)) :: dispatches l := rfl

/-- Dispatching a burst of close-together notifications to a component with
one installed document listener fires no timer: each dispatch cancels the
previous schedule, leaving only the last notification's timer pending. -/
lemma run_dispatches_close (l : List (Nat × JsVal)) :
    ∀ (t0 : Nat) (v0 : JsVal) (s : PageState),
      s.docListeners = 1 →
      s.pending = some ⟨t0 + 100, v0⟩ →
      List.Chain (fun a b => a.1 ≤ b.1 ∧ b.1 < a.1 + 100) (t0, v0) l →
      (run (dispatches l) s).pending =
        some ⟨(l.getLastD (t0, v0)).1 + 100, (l.getLastD (t0, v0)).2⟩ ∧
      (run (dispatches l) s).synced = s.synced ∧
      (run (dispatches l) s).docListeners = 1 := by
  induction l with
  | nil =>
    intro t0 v0 s hdoc hpend _
    exact ⟨hpend, rfl, hdoc⟩
  | cons hd rest ih =>
    intro t0 v0 s hdoc hpend hchain
    obtain ⟨t1, v1⟩ := hd
    rw [List.chain_cons] at hchain
    obtain ⟨⟨hle, hlt⟩, hchain'⟩ := hchain
    have hfire : fireDue t1 s = s := by
      simp [fireDue, hpend, Nat.not_le.mpr hlt]
    have hstep : step (t1, .docDispatch (.withVariant v1)) s =
        handleVariantChange t1 v1 s := by
      simp [step, hfire, hdoc, listenerBody]
    rw [dispatches_cons, run_cons, hstep, List.getLastD_cons]
    exact ih t1 v1 (handleVariantChange t1 v1 s)
      (by simp [handleVariantChange, hdoc]) rfl hchain'

/-- A run containing no variant-change delivery never fires a
synchronization once the timer slot is empty. -/
lemma run_quiet (evs : List (Nat × Ev)) :
    ∀ s : PageState, s.pending = none →
      (∀ e ∈ evs, noNotify e = true) →
      (run evs s).synced = s.synced ∧ (run evs s).pending = none := by
  induction evs with
  | nil => intro s hp _; exact ⟨rfl, hp⟩
  | cons e rest ih =>
    intro s hp h
    obtain ⟨t, ev⟩ := e
    have hfire : fireDue t s = s := by simp [fireDue, hp]
    have he : noNotify (t, ev) = true := h _ (by simp)
    have hrest : ∀ x ∈ rest, noNotify x = true := fun x hx => h x (by simp [hx])
    rw [run_cons]
    cases ev with
    | connect =>
      have hstep : step (t, .connect) s = connectedCallback s := by
        simp [step, hfire]
      rw [hstep]
      exact ih (connectedCallback s) hp hrest
    | disconnect =>
      have hstep : step (t, .disconnect) s = disconnectedCallback s := by
        simp [step, hfire]
      rw [hstep]
      exact ih (disconnectedCallback s) rfl hrest
    | elapse =>
      have hstep : step (t, .elapse) s = s := by simp [step, hfire]
      rw [hstep]
      exact ih s hp hrest
    | docDispatch p =>
      cases p with
      | withVariant id => simp [noNotify] at he
      | nullish =>
        have hstep : step (t, .docDispatch .nullish) s = s := by
          simp [step, hfire]
          exact Function.iterate_fixed rfl _
        rw [hstep]
        exact ih s hp hrest
      | noVariant =>
        have hstep : step (t, .docDispatch .noVariant) s = s := by
          simp [step, hfire]
          exact Function.iterate_fixed rfl _
        rw [hstep]
        exact ih s hp hrest
    | busEmit p =>
      cases p with
      | withVariant id => simp [noNotify] at he
      | nullish =>
        have hstep : step (t, .busEmit .nullish) s = s := by
          simp [step, hfire]
          exact Function.iterate_fixed rfl _
        rw [hstep]
        exact ih s hp hrest
      | noVariant =>
        have hstep : step (t, .busEmit .noVariant) s = s := by
          simp [step, hfire]
          exact Function.iterate_fixed rfl _
        rw [hstep]
        exact ih s hp hrest

/-- `k` attach/detach cycles, all at time `0`. -/
def cycles : Nat → List (Nat × Ev)
  | 0 => []
  | n + 1 => cycles n ++ [(0, .connect), (0, .disconnect)]

lemma run_cycles (b : Bool) (k : Nat) :
    run (cycles k) (pageInit b) =
      { pageInit b with docListeners := k,
                        busListeners := if b then k else 0 } := by
  induction k with
  | zero => cases b <;> rfl
  | succ n ih =>
    rw [cycles, run_append, ih]
    cases b <;> rfl

lemma iterate_handle_invocations (t : Nat) (id : JsVal) (n : Nat) :
    ∀ s : PageState,
      ((listenerBody t (.withVariant id))^[n] s).invocations =
        s.invocations + n := by
  induction n with
  | zero => intro s; rfl
  | succ m ih =>
    intro s
    rw [Function.iterate_succ_apply, ih]
    simp [listenerBody, handleVariantChange]
    omega

/-! ### Claim theorems: debounce, lifecycle, payload guard, registration -/

/-- C2: when `N ≥ 1` notifications arrive each less than the 100-unit
debounce delay after the previous one, every dispatch cancels the pending
timer and reschedules, so that once the last timer elapses only a
synchronization for the last identifier has ever run. -/
theorem debounce_collapses (t0 : Nat) (v0 : JsVal)
    (rest : List (Nat × JsVal))
    (hchain : List.Chain (fun a b => a.1 ≤ b.1 ∧ b.1 < a.1 + 100)
      (t0, v0) rest) :
    (run (dispatches ((t0, v0) :: rest) ++
          [((rest.getLastD (t0, v0)).1 + 100, .elapse)])
       (connectedCallback (pageInit false))).synced =
      [(rest.getLastD (t0, v0)).2] := by
  have hstep0 : step (t0, Ev.docDispatch (.withVariant v0))
      (connectedCallback (pageInit false)) =
      handleVariantChange t0 v0 (connectedCallback (pageInit false)) := rfl
  have hinner : run (dispatches ((t0, v0) :: rest))
      (connectedCallback (pageInit false)) =
      run (dispatches rest)
        (handleVariantChange t0 v0 (connectedCallback (pageInit false))) := by
    rw [dispatches_cons, run_cons, hstep0]
  rw [run_append, hinner]
  obtain ⟨hp, hsync, _⟩ := run_dispatches_close rest t0 v0
    (handleVariantChange t0 v0 (connectedCallback (pageInit false)))
    rfl rfl hchain
  set S2 := run (dispatches rest)
    (handleVariantChange t0 v0 (connectedCallback (pageInit false))) with hS2
  have hone : run [((rest.getLastD (t0, v0)).1 + 100, Ev.elapse)] S2 =
      fireDue ((rest.getLastD (t0, v0)).1 + 100) S2 := rfl
  rw [hone]
  have hfire : fireDue ((rest.getLastD (t0, v0)).1 + 100) S2 =
      { S2 with pending := none,
                synced := S2.synced ++ [(rest.getLastD (t0, v0)).2] } := by
    simp only [fireDue, hp]
    rw [if_pos (Nat.le_refl _)]
  rw [hfire]
  show S2.synced ++ [(rest.getLastD (t0, v0)).2] = [(rest.getLastD (t0, v0)).2]
  rw [hsync]
  rfl

/-- Witness for C2: notifications for `A` then `B` 30 units apart; only the
synchronization for `B` runs. -/
theorem debounce_collapses_witness :
    List.Chain (fun a b => a.1 ≤ b.1 ∧ b.1 < a.1 + 100) (0, JsVal.str "A")
      [(30, JsVal.str "B")] ∧
    (run (dispatches ((0, JsVal.str "A") :: [(30, JsVal.str "B")]) ++
          [(([(30, JsVal.str "B")].getLastD (0, JsVal.str "A")).1 + 100,
            .elapse)])
       (connectedCallback (pageInit false))).synced =
      [([(30, JsVal.str "B")].getLastD (0, JsVal.str "A")).2] :=
  ⟨List.Chain.cons (by decide) List.Chain.nil,
   debounce_collapses 0 (JsVal.str "A") [(30, JsVal.str "B")]
     (List.Chain.cons (by decide) List.Chain.nil)⟩

/-- C3 counterexample: the claim says no synchronization ever runs after
detachment, but the listeners survive `disconnectedCallback`, so a
notification delivered after detachment still schedules and runs a
synchronization for identifier `"7"`. -/
theorem detach_counterexample :
    (run [(0, .connect), (1, .disconnect),
          (2, .docDispatch (.withVariant (.str "7"))), (200, .elapse)]
       (pageInit false)).synced = [JsVal.str "7"] := by
  rfl

/-- C3 amended: detaching clears the pending debounce timer, and in any
continuation that delivers no further variant-change notification, no
synchronization runs after the detachment. -/
theorem detach_cancels (s : PageState) (t : Nat) (evs : List (Nat × Ev))
    (h : ∀ e ∈ evs, noNotify e = true) :
    (step (t, .disconnect) s).pending = none ∧
    (run evs (step (t, .disconnect) s)).synced =
      (step (t, .disconnect) s).synced := by
  have hpend : (step (t, .disconnect) s).pending = none := by
    simp [step, disconnectedCallback]
  exact ⟨hpend, (run_quiet evs _ hpend h).1⟩

/-- Witness for C3 amended: a component with a timer pending is detached at
time `0`; after time passes to `500` nothing has synchronized. -/
theorem detach_cancels_witness :
    (∀ e ∈ [((500 : Nat), Ev.elapse)], noNotify e = true) ∧
    ((step (0, .disconnect)
        ⟨false, 0, 1, some ⟨100, JsVal.str "X"⟩, [], 1⟩).pending = none ∧
     (run [(500, .elapse)]
        (step (0, .disconnect)
          ⟨false, 0, 1, some ⟨100, JsVal.str "X"⟩, [], 1⟩)).synced =
       (step (0, .disconnect)
          ⟨false, 0, 1, some ⟨100, JsVal.str "X"⟩, [], 1⟩).synced) :=
  ⟨by decide,
   detach_cancels ⟨false, 0, 1, some ⟨100, JsVal.str "X"⟩, [], 1⟩ 0
     [(500, .elapse)] (by decide)⟩

/-- C9: `disconnectedCallback` only clears the timer slot; after `k`
attach/detach cycles the document carries `k` listeners (and the bus `k`
subscriptions when present), so one variant-change dispatch invokes
`handleVariantChange` `k` times. -/
theorem detach_leaves_listeners (k : Nat) (b : Bool) (id : JsVal) (t : Nat)
    (s : PageState) :
    disconnectedCallback s = { s with pending := none } ∧
    (run (cycles k) (pageInit b)).docListeners = k ∧
    (run (cycles k) (pageInit b)).busListeners = (if b then k else 0) ∧
    (step (t, .docDispatch (.withVariant id))
        (run (cycles k) (pageInit b))).invocations = k := by
  refine ⟨rfl, ?_, ?_, ?_⟩
  · rw [run_cycles]
  · rw [run_cycles]
  · rw [run_cycles]
    simp [step, fireDue, pageInit]
    rw [iterate_handle_invocations]
    simp [pageInit]

/-- C4 counterexample: a payload whose variant object has a `null`
identifier is not ignored — the listener forwards it and schedules a
synchronization, and that synchronization throws a TypeError
(`null.toString()`) as soon as one main slide exists. -/
theorem malformed_counterexample :
    (listenerBody 0 (.withVariant .null)
        (connectedCallback (pageInit false))).pending =
      some ⟨100, JsVal.null⟩ ∧
    updateMediaForVariant ⟨false, false⟩ ⟨[slideA], []⟩ .null = .error () :=
  ⟨rfl, rfl⟩

/-- C4 amended: payloads with no payload object or no nested variant object
are silently dropped by the listener guard, but a variant object whose
identifier lacks a string form is forwarded to the synchronizer, which
throws when at least one main slide exists and only no-ops when the main
gallery is empty. -/
theorem malformed_guard (t : Nat) (st : PageState) (props : CompProps)
    (dom : Dom) (id : JsVal) (hid : id.toStr = none) :
    listenerBody t .nullish st = st ∧
    listenerBody t .noVariant st = st ∧
    listenerBody t (.withVariant id) st = handleVariantChange t id st ∧
    (dom.mainSlides = [] →
      updateMediaForVariant props dom id = .ok ⟨dom, [], []⟩) ∧
    (dom.mainSlides ≠ [] →
      updateMediaForVariant props dom id = .error ()) := by
  refine ⟨rfl, rfl, rfl, ?_, ?_⟩
  · intro hempty
    have hscan : scanMainSlides dom.mainSlides id = .ok none := by
      rw [hempty]; rfl
    simp [updateMediaForVariant, hscan]
  · intro hne
    rcases hms : dom.mainSlides with _ | ⟨hd, tl⟩
    · exact absurd hms hne
    · have hscan := scanMainSlides_throw id hid hd tl
      simp only [updateMediaForVariant, hms, hscan]

/-- Witness for C4 amended: `null` identifier against the {1, 2} gallery. -/
theorem malformed_guard_witness :
    JsVal.null.toStr = none ∧
    (listenerBody 0 .nullish (pageInit false) = pageInit false ∧
     listenerBody 0 .noVariant (pageInit false) = pageInit false ∧
     listenerBody 0 (.withVariant .null) (pageInit false) =
       handleVariantChange 0 .null (pageInit false) ∧
     (domAB.mainSlides = [] →
       updateMediaForVariant props11 domAB .null = .ok ⟨domAB, [], []⟩) ∧
     (domAB.mainSlides ≠ [] →
       updateMediaForVariant props11 domAB .null = .error ())) :=
  ⟨rfl, malformed_guard 0 (pageInit false) props11 domAB .null rfl⟩

/-- C8: registration is guarded by `customElements.get`, so running the
file's top level again on a page where the tag is already defined skips
the `define` call, and any number of runs define the tag exactly once. -/
theorem register_idempotent :
    (∀ reg, registerProductMedia (registerProductMedia reg) =
      registerProductMedia reg) ∧
    (∀ n, (registerProductMedia^[n + 1] []).count "product-media" = 1) := by
  have hget : ∀ reg,
      customElementsGet (registerProductMedia reg) "product-media" = true := by
    intro reg
    unfold registerProductMedia
    by_cases h : customElementsGet reg "product-media" = false
    · rw [if_pos h]
      simp [customElementsGet, customElementsDefine]
    · rw [if_neg h]
      simpa using h
  constructor
  · intro reg
    have h2 := hget reg
    conv_lhs => rw [registerProductMedia]
    rw [h2]
    simp
  · have hfix : registerProductMedia ["product-media"] = ["product-media"] :=
      rfl
    have hall : ∀ n, registerProductMedia^[n + 1] [] = ["product-media"] := by
      intro n
      induction n with
      | zero => rfl
      | succ m ih => rw [Function.iterate_succ_apply', ih, hfix]
    intro n
    rw [hall n]
    rfl

end ProductMedia
